import Mathlib

/-!
Shallow embedding of the Tekton experimental cloudevents reconciler core
(`cloudevents/pkg/reconciler/events/cloudevent/cloudevent.go`), together with
theorems settling the specification claims about it.

The Go file observes `TaskRun` / `PipelineRun` objects (work items carrying a
knative "Succeeded" condition), classifies the condition into a CDF event type
plus a status, serializes the object into a one-key data payload, assembles a
cloud event, and dispatches it asynchronously with retries and a fallback
Kubernetes event record on terminal failure.

Modelling conventions:
- Go strings are Lean `String`s; Go maps built key-by-key are association
  lists `List (String × String)`.
- `objectWithCondition` values are `RunObject`s: the Go type switch over the
  concrete types `*v1beta1.TaskRun` / `*v1beta1.PipelineRun` (with silent
  fall-through for any other implementor) becomes a match on `RunObject.kind`,
  where `RunKind.other` stands for any further implementor of the interface.
- `json.Marshal` on the object is external; its outcome for a given object is
  carried by the object as the field `marshalJSON`.
- Functions of external SDKs used by the file (the CDF events constructors,
  the cloudevents client with its retry context) are modelled from their
  interfaces, each with a doc comment saying so.
-/

/-- Condition as read off the work item: the knative `apis.Condition` fields
the Go file consults (`Status`, a free-form string, and `Reason`). -/
structure Condition where
  status : String
  reason : String
deriving DecidableEq, Repr

/-- knative `Condition.IsTrue`: the status string equals `"True"`. -/
def Condition.IsTrue (c : Condition) : Bool := c.status == "True"

/-- knative `Condition.IsFalse`: the status string equals `"False"`. -/
def Condition.IsFalse (c : Condition) : Bool := c.status == "False"

/-- knative `Condition.IsUnknown`: the status string equals `"Unknown"`. -/
def Condition.IsUnknown (c : Condition) : Bool := c.status == "Unknown"

/-- The concrete kind of an `objectWithCondition`: the Go file type-switches
on `*v1beta1.TaskRun` and `*v1beta1.PipelineRun`; `other` stands for any
further implementor of the interface (type switches fall through silently). -/
inductive RunKind where
  | taskRun
  | pipelineRun
  | other (typeName : String)
deriving DecidableEq, Repr

/-- The `ObjectMeta` fields the Go file reads. -/
structure ObjectMeta where
  uid : String
  name : String
  namespc : String
  selfLink : String
deriving DecidableEq, Repr

/-- The `GroupVersionKind` fields used when synthesizing a source URI. -/
structure GroupVersionKind where
  group : String
  version : String
  kind : String
deriving DecidableEq, Repr

deriving instance DecidableEq for Except

/-- A work item (`objectWithCondition`): its concrete kind, metadata, GVK,
the "Succeeded" condition as returned by
`GetStatusCondition().GetCondition(apis.ConditionSucceeded)` (`none` when the
condition is absent), and the outcome of `json.Marshal` on the whole object. -/
structure RunObject where
  kind : RunKind
  meta : ObjectMeta
  gvk : GroupVersionKind
  condition : Option Condition
  marshalJSON : Except String String
deriving DecidableEq, Repr

/-- The `%T` rendering of the object, used in error messages. -/
def RunObject.typeName (o : RunObject) : String :=
  match o.kind with
  | .taskRun => "*v1beta1.TaskRun"
  | .pipelineRun => "*v1beta1.PipelineRun"
  | .other t => t

/-- Go `EventStatus` constant `StatusRunning` (the Go type is a string type). -/
def StatusRunning : String := "Running"

/-- Go `EventStatus` constant `StatusFinished`. -/
def StatusFinished : String := "Finished"

/-- Go `EventStatus` constant `StatusError`. -/
def StatusError : String := "Error"

/-- Tekton `v1beta1.TaskRunReasonStarted.String()`. -/
def TaskRunReasonStarted : String := "Started"

/-- Tekton `v1beta1.TaskRunReasonRunning.String()`. -/
def TaskRunReasonRunning : String := "Running"

/-- Tekton `v1beta1.PipelineRunReasonStarted.String()`. -/
def PipelineRunReasonStarted : String := "Started"

/-- Tekton `v1beta1.PipelineRunReasonRunning.String()`. -/
def PipelineRunReasonRunning : String := "Running"

/-- CDF events SDK constant (external vocabulary; `CDEventType` is a string
type, so its zero value is the empty string). -/
def TaskRunStartedEventV1 : String := "cd.taskrun.started.v1"

/-- CDF events SDK constant. -/
def TaskRunFinishedEventV1 : String := "cd.taskrun.finished.v1"

/-- CDF events SDK constant. -/
def PipelineRunQueuedEventV1 : String := "cd.pipelinerun.queued.v1"

/-- CDF events SDK constant. -/
def PipelineRunStartedEventV1 : String := "cd.pipelinerun.started.v1"

/-- CDF events SDK constant. -/
def PipelineRunFinishedEventV1 : String := "cd.pipelinerun.finished.v1"

/-- Go `CDECloudEventData`: `map[string]string`, built key-by-key, as an
association list. -/
abbrev CDECloudEventData := List (String × String)

/-- Go `getEventData`: serializes the object and stores it under the key named
after the object kind; any type other than TaskRun / PipelineRun falls
through the switch, leaving the map empty. A `json.Marshal` error is
returned as-is. -/
def getEventData (runObject : RunObject) : Except String CDECloudEventData :=
  match runObject.kind with
  | .taskRun =>
    match runObject.marshalJSON with
    | .error e => .error e
    | .ok data => .ok [("taskrun", data)]
  | .pipelineRun =>
    match runObject.marshalJSON with
    | .error e => .error e
    | .ok data => .ok [("pipelinerun", data)]
  | .other _ => .ok []

/-- Go `EventType`: the pair the classifier produces. `ty` is the Go field
`Type` (a `CDEventType` string), `status` the Go field `Status`. -/
structure EventType where
  ty : String
  status : String
deriving DecidableEq, Repr

/-- Go `getEventType`: reads the "Succeeded" condition and derives the event
type and status. Faithful to the Go control flow: a missing condition is an
error; an Unknown condition gives `StatusRunning` and maps the reason through
the kind-specific switch (unrecognized reasons error; a kind outside the
switch leaves the zero-valued type); True / False give `StatusFinished` /
`StatusError` with the kind-specific finished type; any other condition
status string is an error. -/
def getEventType (runObject : RunObject) : Except String EventType :=
  match runObject.condition with
  | none =>
    .error ("no condition for ConditionSucceeded in " ++ runObject.typeName)
  | some c =>
    if c.IsUnknown then
      match runObject.kind with
      | .taskRun =>
        if c.reason == TaskRunReasonStarted then
          .ok { ty := TaskRunStartedEventV1, status := StatusRunning }
        else if c.reason == TaskRunReasonRunning then
          .ok { ty := TaskRunStartedEventV1, status := StatusRunning }
        else
          .error ("unknown status with unknown reason " ++ c.reason)
      | .pipelineRun =>
        if c.reason == PipelineRunReasonStarted then
          .ok { ty := PipelineRunQueuedEventV1, status := StatusRunning }
        else if c.reason == PipelineRunReasonRunning then
          .ok { ty := PipelineRunStartedEventV1, status := StatusRunning }
        else
          .error ("unknown status with unknown reason " ++ c.reason)
      | .other _ => .ok { ty := "", status := StatusRunning }
    else if c.IsTrue then
      match runObject.kind with
      | .taskRun => .ok { ty := TaskRunFinishedEventV1, status := StatusFinished }
      | .pipelineRun => .ok { ty := PipelineRunFinishedEventV1, status := StatusFinished }
      | .other _ => .ok { ty := "", status := StatusFinished }
    else if c.IsFalse then
      match runObject.kind with
      | .taskRun => .ok { ty := TaskRunFinishedEventV1, status := StatusError }
      | .pipelineRun => .ok { ty := PipelineRunFinishedEventV1, status := StatusError }
      | .other _ => .ok { ty := "", status := StatusError }
    else
      .error ("unknown condition for in " ++ runObject.typeName ++ ".Status " ++ c.status)

/-- Whether an `Except` is on the error path. -/
def isErr {α : Type} (e : Except String α) : Bool :=
  match e with
  | .error _ => true
  | .ok _ => false

/-- The cloud event as the Go file shapes it: the event type, subject and
source attributes, the data payload, and the CDF extension attributes set by
the SDK constructors (modelled as a key/value list). The zero value of the Go type
`cloudevents.Event` has all of these empty. -/
structure CloudEvent where
  eventType : String
  subject : String
  source : String
  extensions : List (String × String)
  data : CDECloudEventData
deriving DecidableEq, Repr

/-- The zero value `var event cloudevents.Event`. -/
def CloudEvent.zero : CloudEvent :=
  { eventType := "", subject := "", source := "", extensions := [], data := [] }

/-- Modelled from the external CDF events SDK interface
`CreateTaskRunEvent(eventType, taskRunId, taskRunName, taskRunPipelineId,
data)`: builds an event of the given type carrying the arguments as taskrun
extension attributes and the payload as data. Error paths of the external
constructor are not modelled; within this file the constructor is total. -/
def CreateTaskRunEvent (eventType taskRunId taskRunName taskRunPipelineId : String)
    (data : CDECloudEventData) : CloudEvent :=
  { eventType := eventType, subject := "", source := "",
    extensions := [("taskrunid", taskRunId), ("taskrunname", taskRunName),
                   ("taskrunpipelineid", taskRunPipelineId)],
    data := data }

/-- Modelled from the external CDF events SDK interface
`CreatePipelineRunEvent(eventType, pipelineRunId, pipelineRunName,
pipelineRunStatus, pipelineRunURL, pipelineRunErrors, data)`. Error paths of
the external constructor are not modelled; within this file the constructor
is total. -/
def CreatePipelineRunEvent
    (eventType pipelineRunId pipelineRunName pipelineRunStatus pipelineRunURL
      pipelineRunErrors : String) (data : CDECloudEventData) : CloudEvent :=
  { eventType := eventType, subject := "", source := "",
    extensions := [("pipelinerunid", pipelineRunId),
                   ("pipelinerunname", pipelineRunName),
                   ("pipelinerunstatus", pipelineRunStatus),
                   ("pipelinerunurl", pipelineRunURL),
                   ("pipelinerunerrors", pipelineRunErrors)],
    data := data }

/-- Go `eventForObjectWithCondition`: builds the payload and the event type
(propagating their errors), constructs the kind-specific event (the zero
event when the kind matches no switch case), then sets the subject to the
object name and the source to the self link, or, when the self link is
empty, to the `/apis/...` template synthesized from GVK, namespace and
name. -/
def eventForObjectWithCondition (runObject : RunObject) :
    Except String CloudEvent := do
  let meta := runObject.meta
  let data ← getEventData runObject
  let etype ← getEventType runObject
  let event : CloudEvent :=
    match runObject.kind with
    | .taskRun => CreateTaskRunEvent etype.ty meta.uid meta.name ("") data
    | .pipelineRun =>
      CreatePipelineRunEvent etype.ty meta.uid meta.name etype.status ("") ("") data
    | .other _ => CloudEvent.zero
  let event := { event with subject := meta.name }
  let source :=
    if meta.selfLink == "" then
      "/apis/" ++ runObject.gvk.group ++ "/" ++ runObject.gvk.version ++
        "/namespaces/" ++ meta.namespc ++ "/" ++ runObject.gvk.kind ++ "/" ++
        meta.name
    else
      meta.selfLink
  return { event with source := source }

/-- Outcome of one transport send attempt: whether the protocol result is an
ACK (`cloudevents.IsACK`) and the error text of the result (`result.Error()`). -/
structure SendOutcome where
  isACK : Bool
  errText : String
deriving DecidableEq, Repr

/-- The retry parameter the Go file passes to
`ContextWithRetriesExponentialBackoff(ctx, 10*time.Millisecond, 10)`. -/
def ceRetries : Nat := 10

/-- Modelled from the external cloudevents SDK: a send under a retry context
performs the attempt at the current index and, while the outcome is not an
ACK and retries remain, retries with the next index. Returns the final
outcome and the total number of attempts performed. The transport is a
function from attempt index to outcome; retryability of a rejection is a
transport concern and is folded into repeated non-ACK outcomes. -/
def retryLoop (t : Nat → SendOutcome) : Nat → Nat → SendOutcome × Nat
  | i, 0 => (t i, i + 1)
  | i, fuel + 1 => if (t i).isACK then (t i, i + 1) else retryLoop t (i + 1) fuel

/-- Modelled from the external cloudevents SDK:
`ceClient.Send(ContextWithRetriesExponentialBackoff(ctx, base, ceRetries),
event)` — one initial attempt plus up to `ceRetries` retries. -/
def ceClientSend (t : Nat → SendOutcome) : SendOutcome × Nat :=
  retryLoop t 0 ceRetries

/-- The `runtime.Object` argument of `SendCloudEventWithRetries`: either an
implementor of `objectWithCondition`, or any other object (the type
assertion fails on it). -/
inductive RuntimeObject where
  | withCondition (o : RunObject)
  | plain (typeName : String)
deriving DecidableEq, Repr

/-- One record emitted through `recorder.Event(object, eventtype, reason,
message)`. `corev1.EventTypeWarning` is the string `"Warning"`. -/
structure DiagRecord where
  subject : RuntimeObject
  severity : String
  reason : String
  message : String
deriving DecidableEq, Repr

/-- The execution context as the Go file consults it: the optional
cloudevents client (`cloudevent.Get(ctx)`, modelled by the attempt-indexed
outcomes of the transport) and whether an event recorder is present
(`controller.GetEventRecorder(ctx)`). -/
structure Ctx where
  ceClient : Option (Nat → SendOutcome)
  recorderPresent : Bool

/-- Everything observable from one call of `SendCloudEventWithRetries`: the
value returned to the caller, the event handed to the background goroutine
(`none` when no goroutine starts), the records emitted through the event
recorder, and the warning log lines. -/
structure DeliverResult where
  ret : Except String Unit
  dispatched : Option CloudEvent
  diags : List DiagRecord
  warnings : List String

/-- The body of the goroutine after the handoff: send with retries; on a
non-ACK final result log a warning and, when a recorder is in the context,
emit one warning record for the original object with reason
`"Cloud Event Failure"` and the error text of the result; without a recorder log
that no record can be emitted. Returns (records, warning log lines). -/
def goroutineBody (t : Nat → SendOutcome) (recorderPresent : Bool)
    (object : RuntimeObject) : List DiagRecord × List String :=
  let result := (ceClientSend t).1
  if result.isACK then
    ([], [])
  else if recorderPresent then
    ([{ subject := object, severity := "Warning", reason := "Cloud Event Failure",
        message := result.errText }],
     ["Failed to send cloudevent: " ++ result.errText])
  else
    ([], ["Failed to send cloudevent: " ++ result.errText,
          "No recorder in context, cannot emit error event"])

/-- Go `SendCloudEventWithRetries`: type-asserts the object to
`objectWithCondition`, requires a cloudevents client in the context, builds
the event (propagating construction errors), then starts the goroutine and
returns the `nil` passed through the `wasIn` channel. The effects of the goroutine are part of the result record but never of `ret`. -/
def SendCloudEventWithRetries (ctx : Ctx) (object : RuntimeObject) :
    DeliverResult :=
  match object with
  | .plain _ =>
    { ret := .error ("input object does not satisfy objectWithCondition"),
      dispatched := none, diags := [], warnings := [] }
  | .withCondition o =>
    match ctx.ceClient with
    | none =>
      { ret := .error ("no cloud events client found in the context"),
        dispatched := none, diags := [], warnings := [] }
    | some t =>
      match eventForObjectWithCondition o with
      | .error e =>
        { ret := .error e, dispatched := none, diags := [], warnings := [] }
      | .ok event =>
        let (diags, warns) := goroutineBody t ctx.recorderPresent object
        { ret := .ok (), dispatched := some event, diags := diags,
          warnings := warns }

/-- The synchronization-relevant events of one successful
`SendCloudEventWithRetries` call: the rendezvous on the unbuffered `wasIn`
channel (`wasIn <- nil` meeting `<-wasIn`), the return of the caller, the start
of the transport send (with its retries), and its completion. -/
inductive SyncEv where
  | handoff
  | callerReturn
  | sendStart
  | sendComplete
deriving DecidableEq, Repr

/-- Program order of the calling goroutine: it receives the handoff, then
returns. -/
def callerOrder : List SyncEv := [.handoff, .callerReturn]

/-- Program order of the background goroutine: it sends the handoff, then
starts the transport send, which later completes. -/
def backgroundOrder : List SyncEv := [.handoff, .sendStart, .sendComplete]

/-- Event `a` precedes event `b` in the program order `tr`. -/
def seqBefore (tr : List SyncEv) (a b : SyncEv) : Bool :=
  tr.contains a && tr.contains b && tr.indexOf a < tr.indexOf b

/-- Happens-before between the two goroutines: program order within each,
glued at the channel rendezvous (which is one shared event, since the
channel is unbuffered). Scheduling latency adds no further edges, so this
relation is the same for every transport latency. -/
def happensBefore (a b : SyncEv) : Bool :=
  seqBefore callerOrder a b || seqBefore backgroundOrder a b

/-- Sample TaskRun object with a True (succeeded) condition. -/
def trTrue : RunObject :=
  { kind := .taskRun,
    meta := { uid := "uid-tr", name := "tr-name", namespc := "ns",
              selfLink := "" },
    gvk := { group := "tekton.dev", version := "v1beta1", kind := "TaskRun" },
    condition := some { status := "True", reason := "Succeeded" },
    marshalJSON := .ok ("tr-body") }

/-- Sample TaskRun object identical to `trTrue` except that its condition is
False (failed). -/
def trFalse : RunObject :=
  { trTrue with condition := some { status := "False", reason := "Failed" } }

/-- Sample TaskRun object with an Unknown condition and reason Started. -/
def trStarted : RunObject :=
  { trTrue with condition := some { status := "Unknown", reason := "Started" } }

/-- Sample PipelineRun object with an Unknown condition and reason Started. -/
def prStarted : RunObject :=
  { kind := .pipelineRun,
    meta := { uid := "uid-pr", name := "pr-name", namespc := "ns",
              selfLink := "/link/pr" },
    gvk := { group := "tekton.dev", version := "v1beta1",
             kind := "PipelineRun" },
    condition := some { status := "Unknown", reason := "Started" },
    marshalJSON := .ok ("pr-body") }

/-- Sample PipelineRun object with a True (succeeded) condition. -/
def prTrue : RunObject :=
  { prStarted with condition := some { status := "True", reason := "Succeeded" } }

/-- Sample object of a kind outside the type switches, with an Unknown
condition. -/
def otherUnknown : RunObject :=
  { trTrue with
    kind := RunKind.other ("*v1alpha1.Run"),
    condition := some { status := "Unknown", reason := "Whatever" } }

/-- A transport that rejects every attempt with the same error text. -/
def alwaysReject : Nat → SendOutcome :=
  fun _ => { isACK := false, errText := "connection refused" }

/-- C1: for every supported work-item kind (TaskRun, PipelineRun) whose
"Succeeded" condition is Unknown, `getEventType` returns `StatusRunning`
with the kind-specific event type: a TaskRun with reason Started or Running
maps to the taskrun started type (no queued/running distinction); a
PipelineRun with reason Started maps to the pipelinerun queued type and with
reason Running to the pipelinerun started type; any other reason fails with
the unrecognized-reason error. -/
theorem getEventType_unknown_classification (o : RunObject) (c : Condition)
    (hc : o.condition = some c) (hu : c.IsUnknown = true) :
    (o.kind = .taskRun →
      ((c.reason = TaskRunReasonStarted ∨ c.reason = TaskRunReasonRunning) →
        getEventType o = .ok { ty := TaskRunStartedEventV1, status := StatusRunning }) ∧
      (c.reason ≠ TaskRunReasonStarted → c.reason ≠ TaskRunReasonRunning →
        getEventType o = .error ("unknown status with unknown reason " ++ c.reason))) ∧
    (o.kind = .pipelineRun →
      (c.reason = PipelineRunReasonStarted →
        getEventType o = .ok { ty := PipelineRunQueuedEventV1, status := StatusRunning }) ∧
      (c.reason = PipelineRunReasonRunning →
        getEventType o = .ok { ty := PipelineRunStartedEventV1, status := StatusRunning }) ∧
      (c.reason ≠ PipelineRunReasonStarted → c.reason ≠ PipelineRunReasonRunning →
        getEventType o = .error ("unknown status with unknown reason " ++ c.reason))) := by
  refine ⟨fun hk => ⟨fun hr => ?_, fun h1 h2 => ?_⟩,
          fun hk => ⟨fun hr => ?_, fun hr => ?_, fun h1 h2 => ?_⟩⟩ <;>
    simp only [getEventType, hc, hu, hk, if_true]
  · rcases hr with h | h
    · simp [h]
    · by_cases h2 : c.reason = TaskRunReasonStarted
      · simp [h2]
      · simp [h, h2, TaskRunReasonStarted, TaskRunReasonRunning]
  · rw [if_neg (by simpa [TaskRunReasonStarted] using h1),
        if_neg (by simpa [TaskRunReasonRunning] using h2)]
  · simp [hr]
  · by_cases h2 : c.reason = PipelineRunReasonStarted
    · exact absurd ((hr.symm.trans h2 :
        PipelineRunReasonRunning = PipelineRunReasonStarted)) (by decide)
    · simp [hr, h2, PipelineRunReasonStarted, PipelineRunReasonRunning]
  · rw [if_neg (by simpa [PipelineRunReasonStarted] using h1),
        if_neg (by simpa [PipelineRunReasonRunning] using h2)]

/-- Concrete instantiation of the C1 theorem: a TaskRun with reason Started
maps to (taskrun started, Running); a PipelineRun with reason Started maps
to (pipelinerun queued, Running). -/
theorem getEventType_unknown_classification_witness :
    getEventType trStarted = .ok { ty := TaskRunStartedEventV1, status := StatusRunning } ∧
    getEventType prStarted = .ok { ty := PipelineRunQueuedEventV1, status := StatusRunning } :=
  ⟨((getEventType_unknown_classification trStarted
      { status := "Unknown", reason := "Started" } rfl rfl).1 rfl).1 (Or.inl rfl),
   ((getEventType_unknown_classification prStarted
      { status := "Unknown", reason := "Started" } rfl rfl).2 rfl).1 rfl⟩

/-- C2: for every supported work item with a resolved "Succeeded" condition,
`getEventType` on a True condition yields `StatusFinished` and on a False
condition yields `StatusError`, and for a given kind both cases carry the
same (finished) event type, so only the status distinguishes success from
failure. -/
theorem getEventType_resolved_classification (o : RunObject) (c : Condition)
    (hc : o.condition = some c) :
    (o.kind = .taskRun →
      (c.IsTrue = true →
        getEventType o = .ok { ty := TaskRunFinishedEventV1, status := StatusFinished }) ∧
      (c.IsFalse = true →
        getEventType o = .ok { ty := TaskRunFinishedEventV1, status := StatusError })) ∧
    (o.kind = .pipelineRun →
      (c.IsTrue = true →
        getEventType o = .ok { ty := PipelineRunFinishedEventV1, status := StatusFinished }) ∧
      (c.IsFalse = true →
        getEventType o = .ok { ty := PipelineRunFinishedEventV1, status := StatusError })) := by
  have hT : c.IsTrue = true → c.status = "True" := by
    simp [Condition.IsTrue]
  have hF : c.IsFalse = true → c.status = "False" := by
    simp [Condition.IsFalse]
  refine ⟨fun hk => ⟨fun h => ?_, fun h => ?_⟩, fun hk => ⟨fun h => ?_, fun h => ?_⟩⟩ <;>
    first
      | simp [getEventType, hc, hk, Condition.IsUnknown, Condition.IsTrue,
              Condition.IsFalse, hT h]
      | simp [getEventType, hc, hk, Condition.IsUnknown, Condition.IsTrue,
              Condition.IsFalse, hF h]

/-- Concrete instantiation of the C2 theorem: the sample TaskRun with a True
condition classifies as (taskrun finished, Finished), with a False condition
as (taskrun finished, Error): same event type, different status. -/
theorem getEventType_resolved_classification_witness :
    getEventType trTrue = .ok { ty := TaskRunFinishedEventV1, status := StatusFinished } ∧
    getEventType trFalse = .ok { ty := TaskRunFinishedEventV1, status := StatusError } :=
  ⟨((getEventType_resolved_classification trTrue
      { status := "True", reason := "Succeeded" } rfl).1 rfl).1 rfl,
   ((getEventType_resolved_classification trFalse
      { status := "False", reason := "Failed" } rfl).1 rfl).2 rfl⟩

/-- C3: for every work item, regardless of kind, `getEventType` fails with
the missing-condition error when the "Succeeded" condition is absent, and
with the unknown-condition-state error when the status string of the condition is
none of Unknown / True / False; in both cases only an error (no event type
or status) is produced. -/
theorem getEventType_missing_or_unknown_state (o : RunObject) :
    (o.condition = none →
      getEventType o =
        .error ("no condition for ConditionSucceeded in " ++ o.typeName)) ∧
    (∀ c, o.condition = some c → c.IsUnknown = false → c.IsTrue = false →
      c.IsFalse = false →
      getEventType o =
        .error ("unknown condition for in " ++ o.typeName ++ ".Status " ++ c.status)) := by
  refine ⟨fun h => ?_, fun c hc hu ht hf => ?_⟩
  · simp [getEventType, h]
  · simp [getEventType, hc, hu, ht, hf]

/-- Concrete instantiation of the C3 theorem: a TaskRun without a condition
and a TaskRun whose condition status is an out-of-vocabulary string both
make `getEventType` fail with the documented errors. -/
theorem getEventType_missing_or_unknown_state_witness :
    getEventType { trTrue with condition := none } =
      .error ("no condition for ConditionSucceeded in *v1beta1.TaskRun") ∧
    getEventType { trTrue with condition := some { status := "Maybe", reason := "R" } } =
      .error ("unknown condition for in *v1beta1.TaskRun.Status Maybe") :=
  ⟨(getEventType_missing_or_unknown_state { trTrue with condition := none }).1 rfl,
   (getEventType_missing_or_unknown_state
      { trTrue with condition := some { status := "Maybe", reason := "R" } }).2
      { status := "Maybe", reason := "R" } rfl rfl rfl rfl⟩

/-- A payload-building error propagates through
`eventForObjectWithCondition` unchanged: the event builder returns before
classification or event construction. -/
theorem eventFor_of_data_error (o : RunObject) (e : String)
    (h : getEventData o = .error e) :
    eventForObjectWithCondition o = .error e := by
  simp only [eventForObjectWithCondition, h]
  rfl

/-- C4: for every supported work item, `getEventData` returns exactly one
key, named after the work-item kind, mapped to the serialization of the
whole object; a serialization error is returned as-is, no bundle is
produced, and the whole emission (`eventForObjectWithCondition`) aborts with
that error. -/
theorem getEventData_one_key_or_abort (o : RunObject) :
    (o.kind = .taskRun →
      (∀ s, o.marshalJSON = .ok s → getEventData o = .ok [("taskrun", s)]) ∧
      (∀ e, o.marshalJSON = .error e →
        getEventData o = .error e ∧ eventForObjectWithCondition o = .error e)) ∧
    (o.kind = .pipelineRun →
      (∀ s, o.marshalJSON = .ok s → getEventData o = .ok [("pipelinerun", s)]) ∧
      (∀ e, o.marshalJSON = .error e →
        getEventData o = .error e ∧ eventForObjectWithCondition o = .error e)) := by
  refine ⟨fun hk => ⟨fun s hs => ?_, fun e he => ?_⟩,
          fun hk => ⟨fun s hs => ?_, fun e he => ?_⟩⟩
  · simp [getEventData, hk, hs]
  · have hd : getEventData o = .error e := by simp [getEventData, hk, he]
    exact ⟨hd, eventFor_of_data_error o e hd⟩
  · simp [getEventData, hk, hs]
  · have hd : getEventData o = .error e := by simp [getEventData, hk, he]
    exact ⟨hd, eventFor_of_data_error o e hd⟩

/-- Concrete instantiation of the C4 theorem: the sample TaskRun serializes
under the single key "taskrun"; the same TaskRun with a failing
serialization aborts the whole emission with that error. -/
theorem getEventData_one_key_or_abort_witness :
    getEventData trTrue = .ok [("taskrun", "tr-body")] ∧
    eventForObjectWithCondition { trTrue with marshalJSON := .error ("enc") } =
      .error ("enc") :=
  ⟨((getEventData_one_key_or_abort trTrue).1 rfl).1 ("tr-body") rfl,
   (((getEventData_one_key_or_abort
      { trTrue with marshalJSON := .error ("enc") }).1 rfl).2 ("enc") rfl).2⟩

/-- A string with a non-empty left part is non-empty. -/
theorem append_left_ne_empty (s t : String) (h : s ≠ "") : s ++ t ≠ "" := by
  intro he
  apply h
  have hl := congrArg String.length he
  rw [String.length_append] at hl
  have h0 : ("" : String).length = 0 := rfl
  rw [h0] at hl
  have hs : s.length = 0 := by omega
  cases s with
  | mk data =>
    cases data with
    | nil => rfl
    | cons a as => simp [String.length] at hs

/-- Normal form of `eventForObjectWithCondition` when payload building and
classification both succeed: the kind-specific constructor result with the
subject set to the object name and the source set to the self link or the
synthesized template. -/
theorem eventFor_ok_normal_form (o : RunObject) (d : CDECloudEventData)
    (t : EventType) (hd : getEventData o = .ok d)
    (ht : getEventType o = .ok t) :
    eventForObjectWithCondition o =
      .ok { (match o.kind with
             | .taskRun => CreateTaskRunEvent t.ty o.meta.uid o.meta.name ("") d
             | .pipelineRun =>
               CreatePipelineRunEvent t.ty o.meta.uid o.meta.name t.status ("") ("") d
             | .other _ => CloudEvent.zero) with
            subject := o.meta.name,
            source :=
              if o.meta.selfLink == "" then
                "/apis/" ++ o.gvk.group ++ "/" ++ o.gvk.version ++
                  "/namespaces/" ++ o.meta.namespc ++ "/" ++ o.gvk.kind ++
                  "/" ++ o.meta.name
              else
                o.meta.selfLink } := by
  simp only [eventForObjectWithCondition, hd, ht]
  rfl

/-- C5: for every work item whose emission succeeds, the source of the event is
never empty: it is the self link of the object when that is non-empty, and
otherwise the slash-delimited `/apis/...` template populated from the GVK,
namespace and name; and the assembly step itself has no failure path — when
payload building and classification succeed, so does the whole event
construction. -/
theorem eventFor_source_never_empty (o : RunObject) :
    (∀ e, eventForObjectWithCondition o = .ok e →
      e.source ≠ "" ∧
      (o.meta.selfLink ≠ "" → e.source = o.meta.selfLink) ∧
      (o.meta.selfLink = "" →
        e.source = "/apis/" ++ o.gvk.group ++ "/" ++ o.gvk.version ++
          "/namespaces/" ++ o.meta.namespc ++ "/" ++ o.gvk.kind ++ "/" ++
          o.meta.name)) ∧
    (isErr (getEventData o) = false → isErr (getEventType o) = false →
      isErr (eventForObjectWithCondition o) = false) := by
  constructor
  · intro e he
    cases hd : getEventData o with
    | error m =>
      rw [eventFor_of_data_error o m hd] at he
      exact Except.noConfusion he
    | ok d =>
      cases ht : getEventType o with
      | error m =>
        have hx : eventForObjectWithCondition o = .error m := by
          simp only [eventForObjectWithCondition, hd, ht]
          rfl
        rw [hx] at he
        exact Except.noConfusion he
      | ok t =>
        rw [eventFor_ok_normal_form o d t hd ht] at he
        have he2 := Except.ok.inj he
        have hsrc : e.source =
            if o.meta.selfLink == "" then
              "/apis/" ++ o.gvk.group ++ "/" ++ o.gvk.version ++
                "/namespaces/" ++ o.meta.namespc ++ "/" ++ o.gvk.kind ++
                "/" ++ o.meta.name
            else o.meta.selfLink := by
          rw [← he2]
        by_cases hsl : o.meta.selfLink = ""
        · rw [hsrc]
          simp only [hsl, if_pos]
          refine ⟨?_, fun h => absurd rfl h, fun _ => by simp⟩
          simp only [String.append_assoc]
          exact append_left_ne_empty ("/apis/") _ (by decide)
        · rw [hsrc]
          have hb : (o.meta.selfLink == "") = false := by
            simpa using hsl
          simp [hb, hsl]
  · intro h1 h2
    cases hd : getEventData o with
    | error m => rw [hd] at h1; exact absurd h1 (by simp [isErr])
    | ok d =>
      cases ht : getEventType o with
      | error m => rw [ht] at h2; exact absurd h2 (by simp [isErr])
      | ok t => rw [eventFor_ok_normal_form o d t hd ht]; rfl

/-- Concrete instantiation of the C5 theorem: the sample TaskRun has no self
link, so the source of its event is the synthesized template and non-empty; the
source of the sample PipelineRun (which has a self link) is that link. -/
theorem eventFor_source_never_empty_witness :
    (∀ e, eventForObjectWithCondition trTrue = .ok e →
      e.source ≠ "" ∧
      e.source = "/apis/tekton.dev/v1beta1/namespaces/ns/TaskRun/tr-name") ∧
    (∀ e, eventForObjectWithCondition prTrue = .ok e →
      e.source = "/link/pr") := by
  constructor
  · intro e he
    have h := (eventFor_source_never_empty trTrue).1 e he
    exact ⟨h.1, h.2.2 rfl⟩
  · intro e he
    exact ((eventFor_source_never_empty prTrue).1 e he).2.1 (by decide)

/-- C10: for an object that carries a condition but is neither a TaskRun
nor a PipelineRun, classification and payload building do not fail: the
payload is the empty bundle, an Unknown condition (under any reason) gives
`StatusRunning`, True gives `StatusFinished` and False gives `StatusError`,
each with the zero-valued event type, and the whole event construction
succeeds. -/
theorem unsupported_kind_proceeds (o : RunObject) (tn : String)
    (hk : o.kind = RunKind.other tn) :
    getEventData o = .ok [] ∧
    (∀ c, o.condition = some c →
      (c.IsUnknown = true →
        getEventType o = .ok { ty := "", status := StatusRunning }) ∧
      (c.IsTrue = true →
        getEventType o = .ok { ty := "", status := StatusFinished }) ∧
      (c.IsFalse = true →
        getEventType o = .ok { ty := "", status := StatusError }) ∧
      ((c.IsUnknown || c.IsTrue || c.IsFalse) = true →
        isErr (eventForObjectWithCondition o) = false)) := by
  have hdata : getEventData o = .ok [] := by simp [getEventData, hk]
  refine ⟨hdata, fun c hc => ?_⟩
  have hu : c.IsUnknown = true → getEventType o = .ok { ty := "", status := StatusRunning } := by
    intro h
    simp [getEventType, hc, hk, h]
  have ht : c.IsTrue = true → getEventType o = .ok { ty := "", status := StatusFinished } := by
    intro h
    have hs : c.status = "True" := by simpa [Condition.IsTrue] using h
    simp [getEventType, hc, hk, Condition.IsUnknown, Condition.IsTrue, hs]
  have hf : c.IsFalse = true → getEventType o = .ok { ty := "", status := StatusError } := by
    intro h
    have hs : c.status = "False" := by simpa [Condition.IsFalse] using h
    simp [getEventType, hc, hk, Condition.IsUnknown, Condition.IsTrue,
          Condition.IsFalse, hs]
  refine ⟨hu, ht, hf, fun h => ?_⟩
  have hex : ∃ t, getEventType o = .ok t := by
    rcases (Bool.or_eq_true _ _).mp h with h' | hF
    · rcases (Bool.or_eq_true _ _).mp h' with hU | hT
      · exact ⟨_, hu hU⟩
      · exact ⟨_, ht hT⟩
    · exact ⟨_, hf hF⟩
  obtain ⟨t, htt⟩ := hex
  rw [eventFor_ok_normal_form o [] t hdata htt]
  rfl

/-- Concrete instantiation of the C10 theorem: the sample unsupported-kind
object with an Unknown condition gets the empty payload, the zero event
type with status Running, and a successful event construction. -/
theorem unsupported_kind_proceeds_witness :
    getEventData otherUnknown = .ok [] ∧
    getEventType otherUnknown = .ok { ty := "", status := StatusRunning } ∧
    isErr (eventForObjectWithCondition otherUnknown) = false := by
  have h := unsupported_kind_proceeds otherUnknown ("*v1alpha1.Run") rfl
  have h2 := h.2 { status := "Unknown", reason := "Whatever" } rfl
  exact ⟨h.1, h2.1 rfl, h2.2.2.2 rfl⟩

/-- Whether the string `s` occurs as one of the components of the event: as its
type, subject or source attribute, or as the value of one of its extension
or data entries. -/
def CloudEvent.carries (e : CloudEvent) (s : String) : Bool :=
  e.eventType == s || e.subject == s || e.source == s ||
    e.extensions.any (fun kv => kv.2 == s) || e.data.any (fun kv => kv.2 == s)

/-- The derived status of an object paired with whether its assembled event
carries that status as one of its components; `none` when classification or
construction fails. -/
def eventCarriesDerivedStatus (o : RunObject) : Option Bool :=
  match getEventType o, eventForObjectWithCondition o with
  | .ok t, .ok e => some (e.carries t.status)
  | _, _ => none

/-- C8 counterexample: the sample TaskRun with a False condition classifies
to status `StatusError`, yet its assembled event carries that status in
none of its components. The call site passes only `etype.Type` (never
`etype.Status`) to `CreateTaskRunEvent`, so the claim fails for leaf work
items. -/
theorem taskrun_event_misses_status_cex :
    getEventType trFalse = .ok { ty := TaskRunFinishedEventV1, status := StatusError } ∧
    eventCarriesDerivedStatus trFalse = some false := by
  exact ⟨by decide, by decide⟩

/-- C8 (amended): the derived status is carried into the assembled event
for PipelineRun work items, as the pipelinerunstatus extension attribute;
for TaskRun work items the assembled event is the constructor result built
from the event type, the identity metadata and the payload alone — the
derived status is never passed to the constructor, so nothing makes a leaf
event carry it. -/
theorem status_carried_only_for_pipelinerun :
    (∀ o t e, o.kind = .pipelineRun → getEventType o = .ok t →
      eventForObjectWithCondition o = .ok e →
      e.extensions.lookup ("pipelinerunstatus") = some t.status) ∧
    (∀ o t d, o.kind = .taskRun → getEventType o = .ok t →
      getEventData o = .ok d →
      eventForObjectWithCondition o =
        .ok { CreateTaskRunEvent t.ty o.meta.uid o.meta.name ("") d with
              subject := o.meta.name,
              source :=
                if o.meta.selfLink == "" then
                  "/apis/" ++ o.gvk.group ++ "/" ++ o.gvk.version ++
                    "/namespaces/" ++ o.meta.namespc ++ "/" ++ o.gvk.kind ++
                    "/" ++ o.meta.name
                else
                  o.meta.selfLink }) := by
  constructor
  · intro o t e hk ht he
    cases hd : getEventData o with
    | error m =>
      rw [eventFor_of_data_error o m hd] at he
      exact Except.noConfusion he
    | ok d =>
      rw [eventFor_ok_normal_form o d t hd ht] at he
      have he2 := Except.ok.inj he
      subst he2
      simp [hk, CreatePipelineRunEvent, List.lookup]
  · intro o t d hk ht hd
    rw [eventFor_ok_normal_form o d t hd ht]
    simp [hk]

/-- The event assembled for `prTrue` (total extraction, for concrete
instantiations). -/
def prTrueEvent : CloudEvent :=
  match eventForObjectWithCondition prTrue with
  | .ok e => e
  | .error _ => CloudEvent.zero

/-- Concrete instantiation of the amended C8 theorem: the event of the
sample PipelineRun carries status Finished in its pipelinerunstatus
attribute, while the event of the failed sample TaskRun (classified status
Error) is determined by the event type, metadata and payload alone. -/
theorem status_carried_only_for_pipelinerun_witness :
    prTrueEvent.extensions.lookup ("pipelinerunstatus") = some StatusFinished ∧
    eventForObjectWithCondition trFalse =
      .ok { CreateTaskRunEvent TaskRunFinishedEventV1 ("uid-tr") ("tr-name")
              ("") [("taskrun", "tr-body")] with
            subject := "tr-name",
            source := "/apis/tekton.dev/v1beta1/namespaces/ns/TaskRun/tr-name" } :=
  ⟨(status_carried_only_for_pipelinerun).1 prTrue
      { ty := PipelineRunFinishedEventV1, status := StatusFinished } prTrueEvent
      rfl rfl rfl,
   (status_carried_only_for_pipelinerun).2 trFalse
      { ty := TaskRunFinishedEventV1, status := StatusError }
      [("taskrun", "tr-body")] rfl rfl rfl⟩

/-- C6: `SendCloudEventWithRetries` returns an error synchronously, before
any background task starts, exactly for the pre-dispatch failures — failed
type assertion, no cloudevents client in the context, or event construction
failure — and in every other case returns success for every transport
behavior, so an asynchronous delivery failure is never propagated to the
caller. -/
theorem sendCloudEvent_sync_errors (ctx : Ctx) (object : RuntimeObject) :
    (∀ tn, object = .plain tn →
      (SendCloudEventWithRetries ctx object).ret =
        .error ("input object does not satisfy objectWithCondition") ∧
      (SendCloudEventWithRetries ctx object).dispatched = none) ∧
    (∀ o, object = .withCondition o →
      (ctx.ceClient = none →
        (SendCloudEventWithRetries ctx object).ret =
          .error ("no cloud events client found in the context") ∧
        (SendCloudEventWithRetries ctx object).dispatched = none) ∧
      (∀ t, ctx.ceClient = some t →
        (∀ m, eventForObjectWithCondition o = .error m →
          (SendCloudEventWithRetries ctx object).ret = .error m ∧
          (SendCloudEventWithRetries ctx object).dispatched = none ∧
          (SendCloudEventWithRetries ctx object).diags = []) ∧
        (∀ e, eventForObjectWithCondition o = .ok e →
          (SendCloudEventWithRetries ctx object).ret = .ok () ∧
          (SendCloudEventWithRetries ctx object).dispatched = some e))) := by
  constructor
  · intro tn h
    subst h
    exact ⟨rfl, rfl⟩
  · intro o h
    subst h
    constructor
    · intro hc
      simp [SendCloudEventWithRetries, hc]
    · intro t hc
      constructor
      · intro m hm
        simp [SendCloudEventWithRetries, hc, hm]
      · intro e hev
        simp [SendCloudEventWithRetries, hc, hev]

/-- The event assembled for `trTrue` (total extraction, for concrete
instantiations). -/
def trTrueEvent : CloudEvent :=
  match eventForObjectWithCondition trTrue with
  | .ok e => e
  | .error _ => CloudEvent.zero

/-- Concrete instantiation of the C6 theorem: a non-conforming object and a
client-less context fail synchronously; a conforming object with a client
succeeds even though the transport rejects every attempt. -/
theorem sendCloudEvent_sync_errors_witness :
    (SendCloudEventWithRetries { ceClient := some alwaysReject, recorderPresent := true }
        (.plain ("*v1.Pod"))).ret =
      .error ("input object does not satisfy objectWithCondition") ∧
    (SendCloudEventWithRetries { ceClient := none, recorderPresent := true }
        (.withCondition trTrue)).ret =
      .error ("no cloud events client found in the context") ∧
    (SendCloudEventWithRetries { ceClient := some alwaysReject, recorderPresent := true }
        (.withCondition trTrue)).ret = .ok () :=
  ⟨((sendCloudEvent_sync_errors
      { ceClient := some alwaysReject, recorderPresent := true }
      (.plain ("*v1.Pod"))).1 ("*v1.Pod") rfl).1,
   (((sendCloudEvent_sync_errors { ceClient := none, recorderPresent := true }
      (.withCondition trTrue)).2 trTrue rfl).1 rfl).1,
   (((((sendCloudEvent_sync_errors
      { ceClient := some alwaysReject, recorderPresent := true }
      (.withCondition trTrue)).2 trTrue rfl).2 alwaysReject rfl).2 trTrueEvent rfl)).1⟩

/-- When every attempt up to index `i + fuel` is rejected, the retry loop
performs all of them and ends with the outcome of the last attempt. -/
theorem retryLoop_all_reject (t : Nat → SendOutcome) :
    ∀ fuel i, (∀ j, j ≤ i + fuel → (t j).isACK = false) →
      retryLoop t i fuel = (t (i + fuel), i + fuel + 1) := by
  intro fuel
  induction fuel with
  | zero =>
    intro i h
    simp [retryLoop]
  | succ n ih =>
    intro i h
    have h0 : (t i).isACK = false := h i (by omega)
    have hrec := ih (i + 1) (fun j hj => h j (by omega))
    have harith : i + 1 + n = i + (n + 1) := by omega
    rw [harith] at hrec
    simp [retryLoop, h0, hrec]

/-- C7 (amended): when the transport rejects every attempt up to the retry
bound, the pipeline performs exactly the maximum number of attempts and no
more, and — when a recorder is present — emits exactly one diagnostic
record whose subject is the original work item, whose severity is Warning,
whose reason is the fixed literal "Cloud Event Failure", and whose message
is the error text of the final attempt; when the recorder is absent the record is
dropped with a logged warning; either way the return value to the caller stays
success. -/
theorem terminal_failure_one_diag (t : Nat → SendOutcome) (rec : Bool)
    (o : RunObject) (e : CloudEvent)
    (hall : ∀ i, i ≤ ceRetries → (t i).isACK = false)
    (hev : eventForObjectWithCondition o = .ok e) :
    (ceClientSend t).2 = ceRetries + 1 ∧
    (rec = true →
      (SendCloudEventWithRetries { ceClient := some t, recorderPresent := rec }
          (.withCondition o)).diags =
        [{ subject := .withCondition o, severity := "Warning",
           reason := "Cloud Event Failure",
           message := (t ceRetries).errText }]) ∧
    (rec = false →
      (SendCloudEventWithRetries { ceClient := some t, recorderPresent := rec }
          (.withCondition o)).diags = [] ∧
      "No recorder in context, cannot emit error event" ∈
        (SendCloudEventWithRetries { ceClient := some t, recorderPresent := rec }
            (.withCondition o)).warnings) ∧
    (SendCloudEventWithRetries { ceClient := some t, recorderPresent := rec }
        (.withCondition o)).ret = .ok () := by
  have hsend : ceClientSend t = (t ceRetries, ceRetries + 1) := by
    have := retryLoop_all_reject t ceRetries 0 (fun j hj => hall j (by omega))
    simpa [ceClientSend] using this
  have hACK : (t ceRetries).isACK = false := hall ceRetries (by omega)
  refine ⟨by rw [hsend], fun hr => ?_, fun hr => ?_, ?_⟩
  · subst hr
    simp [SendCloudEventWithRetries, hev, goroutineBody, hsend, hACK]
  · subst hr
    simp [SendCloudEventWithRetries, hev, goroutineBody, hsend, hACK]
  · simp [SendCloudEventWithRetries, hev]

/-- Concrete instantiation of the amended C7 theorem: an always-rejecting
transport with a recorder present yields exactly the one warning record for
the original object with reason "Cloud Event Failure" and the error text
of the transport. -/
theorem terminal_failure_one_diag_witness :
    (SendCloudEventWithRetries { ceClient := some alwaysReject, recorderPresent := true }
        (.withCondition trTrue)).diags =
      [{ subject := .withCondition trTrue, severity := "Warning",
         reason := "Cloud Event Failure", message := "connection refused" }] :=
  (terminal_failure_one_diag alwaysReject true trTrue trTrueEvent
    (fun _ _ => rfl) rfl).2.1 rfl

/-- C7 counterexample: at an always-rejecting transport with a recorder
present, the reason of the single emitted diagnostic record is the
literal used by the code, "Cloud Event Failure", which is not the literal "delivery failure"
the claim states. -/
theorem terminal_failure_reason_cex :
    (SendCloudEventWithRetries { ceClient := some alwaysReject, recorderPresent := true }
        (.withCondition trTrue)).diags.map DiagRecord.reason =
      [("Cloud Event Failure")] ∧
    ("Cloud Event Failure" : String) ≠ ("delivery failure" : String) := by
  exact ⟨by decide, by decide⟩

/-- The modelled happens-before relation composes: it is already its own
transitive closure, so it is a genuine causal order. -/
theorem happensBefore_trans :
    ∀ a b c, happensBefore a b = true → happensBefore b c = true →
      happensBefore a c = true := by
  intro a b c h1 h2
  revert h1 h2
  cases a <;> cases b <;> cases c <;> decide

/-- C9: in the happens-before order generated by the program orders of
the two goroutines and the `wasIn` channel rendezvous, the return of the caller is
ordered after the handoff (the background task has started) and the send
starts only after the handoff, but neither the start nor the completion of
the transport send is ordered before the return of the caller: the caller blocks
only on the handoff signal and never on the delivery outcome, for any
transport latency, since the relation has no latency-dependent edges. -/
theorem deliver_blocks_only_on_handoff :
    happensBefore .handoff .callerReturn = true ∧
    happensBefore .handoff .sendStart = true ∧
    happensBefore .sendStart .sendComplete = true ∧
    happensBefore .sendStart .callerReturn = false ∧
    happensBefore .sendComplete .callerReturn = false := by
  decide
